import Mathlib

/-!
Shallow embedding of the `mmio` crate (`src/lib.rs`), a memory-mapped
input/output wrapper around `mmap`, and proofs about its specification.

Modelling conventions:

* Machine integers are `Nat` (for non-negative `off_t` offsets, `usize`
  addresses and lengths, and the non-negative protection/flag constants)
  or `Int` (for file descriptors, which can be `-1`).  Overflow is written
  explicitly with `% 2 ^ w` where the machine arithmetic can wrap.
* The operating system is an oracle record `Os`: the runtime page size
  returned by `sysconf(_SC_PAGESIZE)`, the address returned by `mmap`
  (with `MAP_FAILED` encoded as the all-ones address), and the descriptor
  returned by `open("/dev/mem", ...)` (with `-1` meaning failure).
* Constructors return, besides their `Option` result, the list of OS calls
  they issue, so that statements such as "no unmap call is made" or "the
  length passed to `mmap` is the size of `T`" are about observable calls.
* The mapped storage is a total function `Mem T : Nat → T` from addresses
  to stored values; volatile loads and stores are reads and pointwise
  updates of that function, and each access is also recorded in a trace.
* `MemoryMap<T>` is a record holding the stored pointer as a `Nat`
  address; the null pointer is address `0`.
* The source is compiled for `cfg(unix)` with a 64-bit `off_t` and 64-bit
  pointers; the `cfg(not(unix))` branches simply return `None` and are not
  modelled further.
-/

namespace MemMap

/-- Failure sentinel of `libc::mmap` (`MAP_FAILED`, the all-ones address
on a 64-bit platform). -/
def MAP_FAILED : Nat := 2 ^ 64 - 1

/-- `libc::PROT_READ`. -/
def PROT_READ : Nat := 1

/-- `libc::PROT_WRITE`. -/
def PROT_WRITE : Nat := 2

/-- `libc::MAP_SHARED`. -/
def MAP_SHARED : Nat := 1

/-- `libc::MAP_ANON`. -/
def MAP_ANON : Nat := 32

/-- `libc::O_RDWR`. -/
def O_RDWR : Nat := 2

/-- `libc::O_SYNC`. -/
def O_SYNC : Nat := 1052672

/-- The operating-system oracle: runtime page size, the outcome of the
`mmap` primitive for a request `(len, prot, flags, fd, file_offset)`, and
the outcome of opening `/dev/mem`. -/
structure Os where
  page_size : Nat
  mmap : Nat → Nat → Nat → Int → Nat → Nat
  open_dev_mem : Int

/-- An OS call issued by the library, as observable behaviour. -/
inductive OsCall where
  | mmapCall (len prot flags : Nat) (fd : Int) (file_offset : Nat)
  | openCall (path : String) (flags : Nat)
  | closeCall (fd : Int)
  | munmapCall (addr len : Nat)
deriving DecidableEq, Repr

/-- `MemoryMap<T>`: holds the raw pointer (`ptr: *mut T`), modelled as a
`Nat` address.  `T` is a phantom parameter, interpreted by `read`/`write`. -/
structure MemoryMap (T : Type) where
  ptr : Nat
deriving DecidableEq, Repr

/-- `RawPtr<'a, T>`: the borrowed, non-owning pointer view. -/
structure RawPtr (T : Type) where
  ptr : Nat
deriving DecidableEq, Repr

/-- One volatile access performed by the accessors. -/
inductive Access (T : Type) where
  | load (addr : Nat)
  | store (addr : Nat) (val : T)

/-- The mapped storage, as a total map from addresses to `T` values. -/
def Mem (T : Type) := Nat → T

variable {T : Type}

/-- `MemoryMap::read`: volatile load of `T` from the stored pointer.
Takes `&self`, so it can change neither the pointer nor the storage;
it returns the loaded value and records the access. -/
def MemoryMap.read (self : MemoryMap T) (mem : Mem T) : T × List (Access T) :=
  (mem self.ptr, [Access.load self.ptr])

/-- `MemoryMap::write`: volatile store of `val` through the stored pointer.
Takes `&mut self` but assigns no field, so the returned region is `self`
itself; the storage is updated at `self.ptr` only. -/
def MemoryMap.write (self : MemoryMap T) (mem : Mem T) (val : T) :
    MemoryMap T × Mem T × List (Access T) :=
  (self, fun a => if a = self.ptr then val else mem a, [Access.store self.ptr val])

/-- `MemoryMap::read_and_write`: `let new = cb(self.read()); self.write(new);`. -/
def MemoryMap.read_and_write (self : MemoryMap T) (mem : Mem T) (cb : T → T) :
    MemoryMap T × Mem T × List (Access T) :=
  let r := self.read mem
  let new := cb r.1
  let w := self.write mem new
  (w.1, w.2.1, r.2 ++ w.2.2)

/-- `MemoryMap::as_ref`: returns a `RawPtr` carrying `self.ptr`; ownership
is not transferred, and `self` is untouched. -/
def MemoryMap.as_ref (self : MemoryMap T) : RawPtr T × MemoryMap T :=
  ({ ptr := self.ptr }, self)

/-- `fmt::Pointer for MemoryMap`: renders `self.ptr` into the formatter.
Modelled as returning the address that gets rendered, plus the region. -/
def MemoryMap.fmt_pointer (self : MemoryMap T) : Nat × MemoryMap T :=
  (self.ptr, self)

/-- `fmt::Debug for MemoryMap`: renders `self.ptr` into the formatter. -/
def MemoryMap.fmt_debug (self : MemoryMap T) : Nat × MemoryMap T :=
  (self.ptr, self)

/-- `MemoryMap::open_file_raw`, `cfg(unix)` branch.

Source arithmetic, for a 64-bit signed `off_t` and non-negative `offset`:
`page_size = sysconf(_SC_PAGESIZE)`; `offset_mask = page_size - 1`;
`page_mask = !0u32 as off_t ^ offset_mask` (note the 32-bit all-ones
constant `2 ^ 32 - 1`, sign-less since `u32` zero-extends into `off_t`);
`mmap(null, size_of::<T>(), prot, flags, fd, offset & page_mask)`; on
success the stored pointer is the returned base plus
`offset as usize & offset_mask as usize`.

`size_of_T` stands for `mem::size_of::<T>()`.  The returned list is the
sequence of OS calls issued. -/
def open_file_raw (T : Type) (os : Os) (size_of_T : Nat) (offset : Nat)
    (fd : Int) (prot flags : Nat) : List OsCall × Option (MemoryMap T) :=
  let page_size := os.page_size
  let offset_mask := page_size - 1
  let page_mask := Nat.xor (2 ^ 32 - 1) offset_mask
  let file_offset := Nat.land offset page_mask
  let p := os.mmap size_of_T prot flags fd file_offset
  ([OsCall.mmapCall size_of_T prot flags fd file_offset],
    if p = MAP_FAILED then none
    else some { ptr := (p + Nat.land offset offset_mask) % 2 ^ 64 })

/-- `MemoryMap::anonymous`, `cfg(unix)` branch:
`open_file_raw(0, -1, PROT_READ | PROT_WRITE, MAP_ANON | MAP_SHARED)`. -/
def anonymous (T : Type) (os : Os) (size_of_T : Nat) :
    List OsCall × Option (MemoryMap T) :=
  open_file_raw T os size_of_T 0 (-1) (Nat.lor PROT_READ PROT_WRITE)
    (Nat.lor MAP_ANON MAP_SHARED)

/-- `MemoryMap::dev_mem`, `cfg(unix)` branch: opens `/dev/mem` with
`O_RDWR | O_SYNC`; on failure (`fd == -1`) returns `None` at once;
otherwise delegates to `open_file_raw` with `PROT_READ | PROT_WRITE` and
`MAP_SHARED`, closes the descriptor, and returns the delegation's result. -/
def dev_mem (T : Type) (os : Os) (size_of_T : Nat) (offset : Nat) :
    List OsCall × Option (MemoryMap T) :=
  let fd := os.open_dev_mem
  if fd = -1 then
    ([OsCall.openCall "/dev/mem" (Nat.lor O_RDWR O_SYNC)], none)
  else
    let result := open_file_raw T os size_of_T offset fd
      (Nat.lor PROT_READ PROT_WRITE) MAP_SHARED
    (OsCall.openCall "/dev/mem" (Nat.lor O_RDWR O_SYNC) ::
        result.1 ++ [OsCall.closeCall fd], result.2)

/-- `<MemoryMap as Drop>::drop`, `cfg(unix)` branch.

If the stored pointer is null, return without any call.  Otherwise
`page_size = sysconf(_SC_PAGESIZE) as u32` (wrapping cast);
`offset_mask: u32 = page_size - 1` (wrapping subtraction);
`page_mask: u32 = !0u32 ^ offset_mask`;
`base_addr = (self.ptr as usize) & page_mask as usize` (the `u32` mask
zero-extends into `usize`); then `munmap(base_addr, size_of::<T>())`.
The returned list is the sequence of OS calls issued. -/
def MemoryMap.drop (os : Os) (size_of_T : Nat) (self : MemoryMap T) : List OsCall :=
  if self.ptr = 0 then []
  else
    let page_size := os.page_size % 2 ^ 32
    let offset_mask := (page_size + (2 ^ 32 - 1)) % 2 ^ 32
    let page_mask := Nat.xor (2 ^ 32 - 1) offset_mask
    let base_addr := Nat.land self.ptr page_mask
    [OsCall.munmapCall base_addr size_of_T]

/-- The specification's page rounding, stated independently of the code's
mask arithmetic: "offset rounded down to a multiple of the runtime page
size".  Used only to compare the code's computed file offset against the
spec's words. -/
def spec_rounded_down (page_size offset : Nat) : Nat :=
  page_size * (offset / page_size)

/-- C1: refuted on the code as stated.  With page size 4096 and requested
offset `2 ^ 32` (itself a page multiple, so the spec's rounded-down offset
is `2 ^ 32`), the file offset handed to `mmap` is `0`: the mask
`!0u32 as off_t ^ offset_mask` keeps only bits 12..31 of a 64-bit
`off_t`, so `offset & page_mask` truncates the offset to 32 bits instead
of rounding it down to a page boundary. -/
theorem claim_C1_file_offset_truncated_to_32_bits :
    (open_file_raw Unit
        { page_size := 4096, mmap := fun _ _ _ _ _ => 65536, open_dev_mem := -1 }
        8 (2 ^ 32) 0 3 1).1 = [OsCall.mmapCall 8 3 1 0 0] ∧
    spec_rounded_down 4096 (2 ^ 32) = 2 ^ 32 ∧
    (0 : Nat) ≠ 2 ^ 32 := by
  decide

/-- C2: refuted on the code as stated.  Construct a region with page size
4096 whose `mmap` call returns the page-aligned base `2 ^ 32` at offset 0:
the stored address is `2 ^ 32`, but the release step masks the address
with the zero-extended 32-bit mask `!0u32 ^ offset_mask`, so it passes
base `0` to `munmap` instead of the construction-time base `2 ^ 32`. -/
theorem claim_C2_release_base_truncated_to_32_bits :
    (open_file_raw Unit
        { page_size := 4096, mmap := fun _ _ _ _ _ => 2 ^ 32, open_dev_mem := -1 }
        8 0 (-1) 3 33).2 = some { ptr := 2 ^ 32 } ∧
    MemoryMap.drop
        { page_size := 4096, mmap := fun _ _ _ _ _ => 2 ^ 32, open_dev_mem := -1 }
        8 ({ ptr := 2 ^ 32 } : MemoryMap Unit) = [OsCall.munmapCall 0 8] ∧
    (0 : Nat) ≠ 2 ^ 32 := by
  decide

/-- C3: on any region, `write v` followed immediately by `read` returns
exactly `v` (the write updates the storage at the stored address, and the
read loads from that same address). -/
theorem claim_C3_write_then_read_roundtrip (T : Type) (self : MemoryMap T)
    (mem : Mem T) (v : T) :
    ((self.write mem v).1.read (self.write mem v).2.1).1 = v := by
  simp [MemoryMap.read, MemoryMap.write]

/-- C4: dropping a region whose stored address is the null sentinel issues
no OS call at all — in particular no `munmap`. -/
theorem claim_C4_drop_null_is_noop (T : Type) (os : Os) (size_of_T : Nat) :
    MemoryMap.drop os size_of_T ({ ptr := 0 } : MemoryMap T) = [] := by
  simp [MemoryMap.drop]

/-- C5: `open_file_raw` returns `none` exactly when the `mmap` primitive
returns the failure sentinel for the issued request; being a total
function of its inputs, it always returns `some` or `none` and can never
panic. -/
theorem claim_C5_none_iff_mmap_failed (T : Type) (os : Os)
    (size_of_T offset : Nat) (fd : Int) (prot flags : Nat) :
    (open_file_raw T os size_of_T offset fd prot flags).2 = none ↔
      os.mmap size_of_T prot flags fd
        (Nat.land offset (Nat.xor (2 ^ 32 - 1) (os.page_size - 1))) = MAP_FAILED := by
  simp only [open_file_raw]
  split <;> simp_all

/-- C6: the length passed to `mmap` at construction, and the length passed
to `munmap` when a non-null region is dropped, are both exactly
`size_of::<T>()` — never a page-rounded length. -/
theorem claim_C6_lengths_are_size_of_T (T : Type) (os : Os)
    (size_of_T offset : Nat) (fd : Int) (prot flags : Nat) :
    (∃ file_offset, (open_file_raw T os size_of_T offset fd prot flags).1 =
        [OsCall.mmapCall size_of_T prot flags fd file_offset]) ∧
    (∀ self : MemoryMap T, self.ptr ≠ 0 →
        ∃ base, MemoryMap.drop os size_of_T self = [OsCall.munmapCall base size_of_T]) := by
  constructor
  · exact ⟨_, rfl⟩
  · intro self h
    simp [MemoryMap.drop, h]

/-- Witness for C6 at a concrete region and OS. -/
theorem claim_C6_lengths_witness :
    ∃ base, MemoryMap.drop
        { page_size := 4096, mmap := fun _ _ _ _ _ => 0, open_dev_mem := -1 } 8
        ({ ptr := 4219 } : MemoryMap Unit) = [OsCall.munmapCall base 8] :=
  (claim_C6_lengths_are_size_of_T Unit
    { page_size := 4096, mmap := fun _ _ _ _ _ => 0, open_dev_mem := -1 }
    8 0 (-1) 3 33).2 { ptr := 4219 } (by decide)

/-- C7: if opening `/dev/mem` fails, `dev_mem` returns `none` at once and
the only OS call issued is the `open` itself (no mapping is attempted);
otherwise it issues the `open`, delegates to `open_file_raw` with
protection `PROT_READ | PROT_WRITE` and flags `MAP_SHARED`, closes the
descriptor afterwards, and returns the delegation's result — which is
`none` whenever the mapping step fails. -/
theorem claim_C7_dev_mem_behaviour (T : Type) (os : Os)
    (size_of_T offset : Nat) :
    (os.open_dev_mem = -1 →
      dev_mem T os size_of_T offset =
        ([OsCall.openCall "/dev/mem" (Nat.lor O_RDWR O_SYNC)], none)) ∧
    (os.open_dev_mem ≠ -1 →
      dev_mem T os size_of_T offset =
        (OsCall.openCall "/dev/mem" (Nat.lor O_RDWR O_SYNC) ::
            (open_file_raw T os size_of_T offset os.open_dev_mem
              (Nat.lor PROT_READ PROT_WRITE) MAP_SHARED).1 ++
          [OsCall.closeCall os.open_dev_mem],
         (open_file_raw T os size_of_T offset os.open_dev_mem
            (Nat.lor PROT_READ PROT_WRITE) MAP_SHARED).2)) := by
  constructor <;> intro h <;> simp [dev_mem, h]

/-- Witness for C7: one OS whose device open fails, one whose open
succeeds but whose mapping fails. -/
theorem claim_C7_dev_mem_witness :
    dev_mem Unit
        { page_size := 4096, mmap := fun _ _ _ _ _ => 65536, open_dev_mem := -1 } 8 0 =
      ([OsCall.openCall "/dev/mem" (Nat.lor O_RDWR O_SYNC)], none) ∧
    dev_mem Unit
        { page_size := 4096, mmap := fun _ _ _ _ _ => MAP_FAILED, open_dev_mem := 5 } 8 0 =
      (OsCall.openCall "/dev/mem" (Nat.lor O_RDWR O_SYNC) ::
          (open_file_raw Unit
            { page_size := 4096, mmap := fun _ _ _ _ _ => MAP_FAILED, open_dev_mem := 5 }
            8 0 5 (Nat.lor PROT_READ PROT_WRITE) MAP_SHARED).1 ++
        [OsCall.closeCall 5],
       (open_file_raw Unit
          { page_size := 4096, mmap := fun _ _ _ _ _ => MAP_FAILED, open_dev_mem := 5 }
          8 0 5 (Nat.lor PROT_READ PROT_WRITE) MAP_SHARED).2) :=
  ⟨(claim_C7_dev_mem_behaviour Unit
      { page_size := 4096, mmap := fun _ _ _ _ _ => 65536, open_dev_mem := -1 } 8 0).1
      (by decide),
   (claim_C7_dev_mem_behaviour Unit
      { page_size := 4096, mmap := fun _ _ _ _ _ => MAP_FAILED, open_dev_mem := 5 } 8 0).2
      (by decide)⟩

/-- C8: `read_and_write cb` is exactly `write (cb (read))`: its resulting
region and storage are those of that sequential composition, and its
access trace is exactly one load from the stored address followed by one
store of the transformed value to the same address. -/
theorem claim_C8_read_and_write_is_composition (T : Type) (self : MemoryMap T)
    (mem : Mem T) (cb : T → T) :
    self.read_and_write mem cb =
      ((self.write mem (cb (self.read mem).1)).1,
       (self.write mem (cb (self.read mem).1)).2.1,
       (self.read mem).2 ++ (self.write mem (cb (self.read mem).1)).2.2) ∧
    (self.read_and_write mem cb).2.2 =
      [Access.load self.ptr, Access.store self.ptr (cb (mem self.ptr))] := by
  constructor <;> rfl

/-- C9: the borrowed view carries exactly the region's stored address, and
obtaining it returns the region itself unchanged. -/
theorem claim_C9_as_ref_same_address (T : Type) (self : MemoryMap T) :
    (self.as_ref).1.ptr = self.ptr ∧ (self.as_ref).2 = self :=
  ⟨rfl, rfl⟩

/-- C10: every non-destroying operation — `write`, `read_and_write`,
`as_ref`, and the two formatting operations — returns the region with its
stored address unchanged (`read` takes the region immutably, so it cannot
change it at all), and the mutating operations change the storage only at
the stored address. -/
theorem claim_C10_operations_preserve_address (T : Type) (self : MemoryMap T)
    (mem : Mem T) (v : T) (cb : T → T) :
    (self.write mem v).1 = self ∧
    (self.read_and_write mem cb).1 = self ∧
    (self.as_ref).2 = self ∧
    (self.fmt_pointer).2 = self ∧
    (self.fmt_debug).2 = self ∧
    (∀ a, a ≠ self.ptr → (self.write mem v).2.1 a = mem a) ∧
    (∀ a, a ≠ self.ptr → (self.read_and_write mem cb).2.1 a = mem a) := by
  refine ⟨rfl, rfl, rfl, rfl, rfl, ?_, ?_⟩ <;> intro a h <;>
    simp [MemoryMap.write, MemoryMap.read_and_write, MemoryMap.read, h]

/-- Witness for C10 at a concrete region, storage and off-address cell. -/
theorem claim_C10_operations_witness :
    (({ ptr := 5 } : MemoryMap Nat).write (fun _ => 0) 7).2.1 3 = 0 ∧
    (({ ptr := 5 } : MemoryMap Nat).read_and_write (fun _ => 0) (fun x => x + 1)).2.1 3 = 0 :=
  ⟨(claim_C10_operations_preserve_address Nat { ptr := 5 } (fun _ => 0) 7
      (fun x => x + 1)).2.2.2.2.2.1 3 (by decide),
   (claim_C10_operations_preserve_address Nat { ptr := 5 } (fun _ => 0) 7
      (fun x => x + 1)).2.2.2.2.2.2 3 (by decide)⟩

end MemMap
